import Mathlib

/-
Verification of the PTY-backed process lifecycle manager
(codex-rs/utils/pty/src/pty.rs): terminal-size resolution, child command
construction, and the three I/O/lifecycle loops (output reader, input
writer, exit waiter), modelled as pure functions over explicit state.
-/

namespace PtySpec

/-! ## Terminal size resolution -/

/-- Model of Rust `str::parse::<u16>` applied to a list of characters with no
sign handling: succeeds on a nonempty all-ASCII-digit list, producing its
decimal value. -/
def parseDigits (cs : List Char) : Option Nat :=
  if cs = [] then none
  else if cs.all (fun c => c.isDigit) then
    some (cs.foldl (fun a c => a * 10 + (c.toNat - 48)) 0)
  else none

/-- Strip the optional leading plus sign Rust's unsigned parser accepts. -/
def stripPlus (cs : List Char) : List Char :=
  match cs with
  | [] => []
  | ch :: rest => if ch = '+' then rest else ch :: rest

/-- Model of Rust `str::parse::<u16>`: an optional leading plus sign, then one
or more ASCII digits, and the value must fit in 16 bits (be at most 65535);
anything else fails. -/
def parseU16 (s : String) : Option Nat :=
  (parseDigits (stripPlus s.data)).bind fun n =>
    if n ≤ 65535 then some n else none

/-- The ambient environment of the supervisor process, as a lookup from
variable name to optional value (Rust `env::var(..).ok()`). -/
def EnvMap : Type := String → Option String

/-- Embeds `parse_env_size`: read `LINES` and `COLUMNS` from the environment,
parse each as `u16` (each step short-circuits to `None` like Rust's `?`),
and reject the pair when either is zero. -/
def parse_env_size (env : EnvMap) : Option (Nat × Nat) :=
  (env "LINES").bind fun rowsStr =>
  (parseU16 rowsStr).bind fun rows =>
  (env "COLUMNS").bind fun colsStr =>
  (parseU16 colsStr).bind fun cols =>
  if rows = 0 ∨ cols = 0 then none else some (rows, cols)

/-- The observable outcome of the `TIOCGWINSZ` ioctl on one file descriptor:
the ioctl return code and the row/column fields of the reported winsize. -/
structure Winsize where
  ret : Int
  ws_row : Nat
  ws_col : Nat
deriving DecidableEq

/-- Embeds `detect_terminal_size_from_fd`: the size is usable only when the
ioctl succeeded (returned 0) and both reported dimensions are nonzero. -/
def detect_terminal_size_from_fd (w : Winsize) : Option (Nat × Nat) :=
  if w.ret ≠ 0 ∨ w.ws_row = 0 ∨ w.ws_col = 0 then none
  else some (w.ws_row, w.ws_col)

/-- The terminal state visible to the supervisor: ioctl outcomes for the
standard output and standard input descriptors. -/
structure TermState where
  stdout : Winsize
  stdin : Winsize
deriving DecidableEq

/-- Embeds the POSIX `detect_terminal_size`: stdout's window size, else
stdin's, else the `LINES`/`COLUMNS` environment fallback. -/
def detect_terminal_size (t : TermState) (env : EnvMap) : Option (Nat × Nat) :=
  match detect_terminal_size_from_fd t.stdout with
  | some s => some s
  | none =>
    match detect_terminal_size_from_fd t.stdin with
    | some s => some s
    | none => parse_env_size env

/-! ## Child command construction -/

/-- Association-list lookup, first match wins (the map view of a
`CommandBuilder` environment, whose keys are unique). -/
def lookupEnv : List (String × String) → String → Option String
  | [], _ => none
  | p :: rest, k => if p.1 = k then some p.2 else lookupEnv rest k

/-- Association-list lookup where the last binding of a key wins: the
resolved view of a sequence of `env(key, value)` calls. -/
def lookupLast : List (String × String) → String → Option String
  | [], _ => none
  | p :: rest, k =>
    match lookupLast rest k with
    | some v => some v
    | none => if p.1 = k then some p.2 else none

/-- Key-unique insertion into an association list: replace the existing
binding of the key, or append a fresh one. -/
def insertEnv : List (String × String) → String → String → List (String × String)
  | [], k, v => [(k, v)]
  | p :: rest, k, v => if p.1 = k then (k, v) :: rest else p :: insertEnv rest k v

/-- Embeds `portable_pty::CommandBuilder` as the state the builder calls in
`spawn_process` accumulate: the single program/argv0 string, the argument
list, the working directory, and the environment map (which
`CommandBuilder::new` seeds from the ambient process environment). -/
structure CommandBuilder where
  program : String
  args : List String
  cwd : Option String
  envs : List (String × String)
deriving DecidableEq

/-- Embeds `CommandBuilder::new`: program/argv0 set, no extra args, no cwd,
environment seeded from the ambient process environment. -/
def CommandBuilder.new (ambient : List (String × String)) (program : String) :
    CommandBuilder :=
  { program := program, args := [], cwd := none, envs := ambient }

/-- Embeds `CommandBuilder::cwd`. -/
def CommandBuilder.setCwd (cb : CommandBuilder) (d : String) : CommandBuilder :=
  { cb with cwd := some d }

/-- Embeds `CommandBuilder::env_clear`: drop every environment binding
accumulated so far, including the inherited ambient ones. -/
def CommandBuilder.env_clear (cb : CommandBuilder) : CommandBuilder :=
  { cb with envs := [] }

/-- Embeds `CommandBuilder::arg`. -/
def CommandBuilder.addArg (cb : CommandBuilder) (a : String) : CommandBuilder :=
  { cb with args := cb.args ++ [a] }

/-- Embeds `CommandBuilder::env`: set one environment binding. -/
def CommandBuilder.setEnv (cb : CommandBuilder) (k v : String) : CommandBuilder :=
  { cb with envs := insertEnv cb.envs k v }

/-- The arguments of `spawn_process`: program, args, cwd, the caller-supplied
environment map (a `HashMap`, modelled as an association list), the optional
argv0 override, and the optional explicit size. -/
structure SpawnRequest where
  program : String
  args : List String
  cwd : String
  env : List (String × String)
  arg0 : Option String
  size : Option (Nat × Nat)
deriving DecidableEq

/-- The command-construction section of `spawn_process`:
`CommandBuilder::new(arg0.unwrap_or(program))`, then `cwd`, `env_clear`,
each argument in order, then each caller-supplied environment pair. -/
def buildCommand (ambient : List (String × String)) (req : SpawnRequest) :
    CommandBuilder :=
  let cb := CommandBuilder.new ambient
    (match req.arg0 with
     | some a => a
     | none => req.program)
  let cb := cb.setCwd req.cwd
  let cb := cb.env_clear
  let cb := req.args.foldl CommandBuilder.addArg cb
  req.env.foldl (fun cb p => cb.setEnv p.1 p.2) cb

/-! ## spawn_process up to child spawn, as an effect trace -/

/-- The errors `spawn_process` can return before the loops start, in source
order: empty program, no resolvable terminal size, `openpty` failure,
`spawn_command` failure. -/
inductive SpawnError where
  | missingProgram
  | missingTerminalSize
  | ptyOpenError
  | spawnCommandError
deriving DecidableEq

/-- The OS-resource effects `spawn_process` performs, recorded in order:
opening a PTY pair at a given size, and spawning the child command on its
slave end. -/
inductive SpawnEffect where
  | openPty (rows cols : Nat)
  | spawnChild (cmd : CommandBuilder)
deriving DecidableEq

/-- The successful outcome of the modelled section of `spawn_process`: the
PTY size actually opened and the command spawned. -/
structure SpawnOk where
  rows : Nat
  cols : Nat
  cmd : CommandBuilder
deriving DecidableEq

/-- Embeds `size.or_else(detect_terminal_size)` from `spawn_process`: the
explicit caller size when present, the detected size otherwise. -/
def size_or_detect (t : TermState) (env : EnvMap) :
    Option (Nat × Nat) → Option (Nat × Nat)
  | some s => some s
  | none => detect_terminal_size t env

/-- Embeds `spawn_process` up to spawning the child: reject an empty program;
resolve the size as `size.or_else(detect_terminal_size)` (the environment
lookups read the same ambient environment that seeds the builder); clamp each
dimension to a minimum of 1; open the PTY; build the command; spawn it. The
`ptyOk`/`spawnOk` flags stand for the success of the two fallible OS calls;
the returned list is the trace of OS-resource effects performed. -/
def spawn_process (ambient : List (String × String)) (t : TermState)
    (ptyOk spawnOk : Bool) (req : SpawnRequest) :
    List SpawnEffect × Except SpawnError SpawnOk :=
  if req.program = "" then ([], Except.error SpawnError.missingProgram)
  else
    match size_or_detect t (lookupEnv ambient) req.size with
    | none => ([], Except.error SpawnError.missingTerminalSize)
    | some sz =>
      let rows := max sz.1 1
      let cols := max sz.2 1
      if ptyOk = false then
        ([SpawnEffect.openPty rows cols], Except.error SpawnError.ptyOpenError)
      else
        let cmd := buildCommand ambient req
        if spawnOk = false then
          ([SpawnEffect.openPty rows cols, SpawnEffect.spawnChild cmd],
           Except.error SpawnError.spawnCommandError)
        else
          ([SpawnEffect.openPty rows cols, SpawnEffect.spawnChild cmd],
           Except.ok { rows := rows, cols := cols, cmd := cmd })

/-- The PTY sizes opened along an effect trace. -/
def openedSizes (effects : List SpawnEffect) : List (Nat × Nat) :=
  effects.filterMap fun e =>
    match e with
    | SpawnEffect.openPty r c => some (r, c)
    | _ => none

/-! ## The output reader loop -/

/-- One result of `reader.read(&mut buf)` as the loop observes it: `ok data`
is a successful read of `data.length` bytes (so `ok []` is the zero-byte
end-of-stream read), and the three error shapes the loop distinguishes. -/
inductive ReadResult where
  | ok (data : List Nat)
  | interrupted
  | wouldBlock
  | otherError
deriving DecidableEq

/-- The observable actions of the reader loop: publishing one chunk to the
broadcast channel, or sleeping for a number of milliseconds. -/
inductive ReaderEvent where
  | publish (data : List Nat)
  | sleepMillis (n : Nat)
deriving DecidableEq

/-- The reader's fixed buffer length (`let mut buf = [0u8; 8_192]`). -/
def READ_BUF_LEN : Nat := 8192

/-- The number of bytes a read result delivers (bounded by the buffer). -/
def readLen : ReadResult → Nat
  | ReadResult.ok data => data.length
  | _ => 0

/-- Embeds the reader-loop body over the sequence of read results it
observes: a zero-byte read breaks; a read of n > 0 bytes sends exactly those
bytes and continues; an interrupted error continues immediately; a
would-block error sleeps 5 ms and continues; any other error breaks. A
finite result list models a finite prefix of the loop's lifetime. -/
def reader_loop : List ReadResult → List ReaderEvent
  | [] => []
  | ReadResult.ok [] :: _ => []
  | ReadResult.ok (b :: bs) :: rest =>
    ReaderEvent.publish (b :: bs) :: reader_loop rest
  | ReadResult.interrupted :: rest => reader_loop rest
  | ReadResult.wouldBlock :: rest =>
    ReaderEvent.sleepMillis 5 :: reader_loop rest
  | ReadResult.otherError :: _ => []

/-- Whether a read result makes the loop break (zero-byte read, or an error
other than interrupted/would-block). -/
def stopsLoop : ReadResult → Bool
  | ReadResult.ok [] => true
  | ReadResult.otherError => true
  | _ => false

/-- The single event a non-breaking read result produces, if any. -/
def readEvent : ReadResult → Option ReaderEvent
  | ReadResult.ok [] => none
  | ReadResult.ok (b :: bs) => some (ReaderEvent.publish (b :: bs))
  | ReadResult.interrupted => none
  | ReadResult.wouldBlock => some (ReaderEvent.sleepMillis 5)
  | ReadResult.otherError => none

/-- The chunks published along a reader event trace, in order. -/
def publishedChunks (evs : List ReaderEvent) : List (List Nat) :=
  evs.filterMap fun e =>
    match e with
    | ReaderEvent.publish d => some d
    | _ => none

/-! ## The input writer loop -/

/-- One iteration of the writer loop: the buffer written in full to the PTY
master, and whether the `write_all` and the `flush` succeeded (both results
are discarded by the loop). -/
structure WriteEvent where
  data : List Nat
  write_ok : Bool
  flush_ok : Bool
deriving DecidableEq

/-- Embeds the writer loop: `while let Some(bytes) = writer_rx.recv().await`
dequeues one buffer at a time; the modelled input list is the sequence of
buffers received before the channel reports closed-and-drained, at which
point `recv` yields `None` and the loop ends. `fails i` gives the success of
the write and flush of iteration `i`; both outcomes are recorded and ignored. -/
def writer_loop : List (List Nat) → (Nat → Bool × Bool) → Nat → List WriteEvent
  | [], _, _ => []
  | b :: rest, fails, i =>
    { data := b, write_ok := (fails i).1, flush_ok := (fails i).2 } ::
      writer_loop rest fails (i + 1)

/-! ## The exit monitor -/

/-- The outcome of the single `child.wait()` call: a successfully observed
status carrying the `u32` value of `status.exit_code()`, or an error from
the wait itself. -/
inductive WaitResult where
  | ok (exit_code : Nat)
  | err
deriving DecidableEq

/-- Rust `as i32` applied to a `u32` value: two's-complement wrap-around. -/
def u32_as_i32 (c : Nat) : Int :=
  if c % 4294967296 < 2147483648 then ((c % 4294967296 : Nat) : Int)
  else ((c % 4294967296 : Nat) : Int) - 4294967296

/-- The code the exit monitor records: `status.exit_code() as i32` on a
successful wait, the sentinel -1 when the wait call errors. -/
def wait_exit_code : WaitResult → Int
  | WaitResult.ok c => u32_as_i32 c
  | WaitResult.err => -1

/-- The shared exit state the monitor updates: the exit-observed atomic flag,
the exit-code cell behind the mutex, the messages delivered into the oneshot
exit channel, and whether the channel's receiver is still alive. -/
structure ExitState where
  exit_status : Bool
  exit_code : Option Int
  sent : List Int
  receiver_alive : Bool
deriving DecidableEq

/-- The exit state at spawn time: flag clear, cell empty, nothing sent. -/
def initialExitState (alive : Bool) : ExitState :=
  { exit_status := false, exit_code := none, sent := [], receiver_alive := alive }

/-- Embeds the body of the wait task: compute the code from the single wait,
store `true` in the exit-observed flag, write the code into the cell, then
send it on the oneshot channel — a send to a dropped receiver delivers
nothing and is ignored (`let _ = exit_tx.send(code)`). -/
def wait_handle (w : WaitResult) (s : ExitState) : ExitState :=
  let code := wait_exit_code w
  let s1 := { s with exit_status := true }
  let s2 := { s1 with exit_code := some code }
  if s2.receiver_alive then { s2 with sent := s2.sent ++ [code] } else s2

/-! ## Concrete fixtures -/

/-- An ambient environment with `LINES=42` and `COLUMNS=120`. -/
def ambient42 : List (String × String) := [("LINES", "42"), ("COLUMNS", "120")]

/-- An ambient environment whose `LINES` value exceeds 16 bits. -/
def ambient70000 : List (String × String) := [("LINES", "70000"), ("COLUMNS", "120")]

/-- A terminal state where both ioctls report an unusable (all-zero) size. -/
def tNoTerm : TermState :=
  { stdout := { ret := 0, ws_row := 0, ws_col := 0 },
    stdin := { ret := 0, ws_row := 0, ws_col := 0 } }

/-- A terminal state where the stdout ioctl reports a 40x100 window and the
stdin ioctl reports nothing usable. -/
def tStdout40x100 : TermState :=
  { stdout := { ret := 0, ws_row := 40, ws_col := 100 },
    stdin := { ret := 0, ws_row := 0, ws_col := 0 } }

/-- A spawn request with no explicit size and no argv0 override. -/
def reqNoSize : SpawnRequest :=
  { program := "sh", args := [], cwd := "/", env := [], arg0 := none, size := none }

/-- A spawn request whose explicit size has a zero rows component. -/
def reqZeroRows : SpawnRequest :=
  { program := "sh", args := [], cwd := "/", env := [], arg0 := none,
    size := some (0, 5) }

/-- A spawn request with program `p` and an argv0 override `q`. -/
def reqArg0 : SpawnRequest :=
  { program := "p", args := ["x"], cwd := "/tmp", env := [], arg0 := some "q",
    size := some (10, 20) }

/-- A sample read-result sequence exercising every reader-loop branch. -/
def sampleReads : List ReadResult :=
  [ReadResult.ok [1, 2], ReadResult.interrupted, ReadResult.wouldBlock,
   ReadResult.ok [3], ReadResult.ok [], ReadResult.ok [9]]

/-! ## Helper lemmas -/

theorem lookupEnv_insertEnv (m : List (String × String)) (k v k2 : String) :
    lookupEnv (insertEnv m k v) k2 =
      if k = k2 then some v else lookupEnv m k2 := by
  induction m with
  | nil => simp [insertEnv, lookupEnv]
  | cons p rest ih =>
    by_cases h1 : p.1 = k
    · by_cases h2 : k = k2 <;>
        simp [insertEnv, lookupEnv, h1, h2]
    · by_cases h2 : p.1 = k2
      · have hk : ¬ k = k2 := fun hkk => h1 (hkk ▸ h2)
        have hk2 : ¬ k2 = k := fun hkk => hk hkk.symm
        simp [insertEnv, lookupEnv, h1, h2, hk, hk2]
      · simp [insertEnv, lookupEnv, h1, h2, ih]

theorem lookupEnv_setEnv_foldl (l : List (String × String)) (cb : CommandBuilder)
    (k : String) :
    lookupEnv (l.foldl (fun cb p => cb.setEnv p.1 p.2) cb).envs k =
      match lookupLast l k with
      | some v => some v
      | none => lookupEnv cb.envs k := by
  induction l generalizing cb with
  | nil => simp [lookupLast]
  | cons p rest ih =>
    simp only [List.foldl_cons, lookupLast]
    rw [ih]
    cases hl : lookupLast rest k with
    | some v => simp
    | none =>
      simp only [CommandBuilder.setEnv, lookupEnv_insertEnv]
      by_cases h : p.1 = k <;> simp [h]

theorem setEnv_foldl_program (l : List (String × String)) (cb : CommandBuilder) :
    (l.foldl (fun cb p => cb.setEnv p.1 p.2) cb).program = cb.program := by
  induction l generalizing cb with
  | nil => rfl
  | cons p rest ih =>
    rw [List.foldl_cons, ih]
    rfl

theorem setEnv_foldl_args (l : List (String × String)) (cb : CommandBuilder) :
    (l.foldl (fun cb p => cb.setEnv p.1 p.2) cb).args = cb.args := by
  induction l generalizing cb with
  | nil => rfl
  | cons p rest ih =>
    rw [List.foldl_cons, ih]
    rfl

theorem setEnv_foldl_cwd (l : List (String × String)) (cb : CommandBuilder) :
    (l.foldl (fun cb p => cb.setEnv p.1 p.2) cb).cwd = cb.cwd := by
  induction l generalizing cb with
  | nil => rfl
  | cons p rest ih =>
    rw [List.foldl_cons, ih]
    rfl

theorem addArg_foldl_args (l : List String) (cb : CommandBuilder) :
    (l.foldl CommandBuilder.addArg cb).args = cb.args ++ l := by
  induction l generalizing cb with
  | nil => simp
  | cons a rest ih =>
    rw [List.foldl_cons, ih]
    simp [CommandBuilder.addArg]

theorem addArg_foldl_program (l : List String) (cb : CommandBuilder) :
    (l.foldl CommandBuilder.addArg cb).program = cb.program := by
  induction l generalizing cb with
  | nil => rfl
  | cons a rest ih =>
    rw [List.foldl_cons, ih]
    rfl

theorem addArg_foldl_cwd (l : List String) (cb : CommandBuilder) :
    (l.foldl CommandBuilder.addArg cb).cwd = cb.cwd := by
  induction l generalizing cb with
  | nil => rfl
  | cons a rest ih =>
    rw [List.foldl_cons, ih]
    rfl

theorem addArg_foldl_envs (l : List String) (cb : CommandBuilder) :
    (l.foldl CommandBuilder.addArg cb).envs = cb.envs := by
  induction l generalizing cb with
  | nil => rfl
  | cons a rest ih =>
    rw [List.foldl_cons, ih]
    rfl

theorem buildCommand_program (ambient : List (String × String)) (req : SpawnRequest) :
    (buildCommand ambient req).program =
      match req.arg0 with
      | some a => a
      | none => req.program := by
  unfold buildCommand
  rw [setEnv_foldl_program, addArg_foldl_program]
  rfl

theorem buildCommand_cwd (ambient : List (String × String)) (req : SpawnRequest) :
    (buildCommand ambient req).cwd = some req.cwd := by
  unfold buildCommand
  rw [setEnv_foldl_cwd, addArg_foldl_cwd]
  rfl

theorem buildCommand_args (ambient : List (String × String)) (req : SpawnRequest) :
    (buildCommand ambient req).args = req.args := by
  unfold buildCommand
  rw [setEnv_foldl_args, addArg_foldl_args]
  rfl

theorem buildCommand_env (ambient : List (String × String)) (req : SpawnRequest)
    (k : String) :
    lookupEnv (buildCommand ambient req).envs k = lookupLast req.env k := by
  unfold buildCommand
  rw [lookupEnv_setEnv_foldl]
  rw [addArg_foldl_envs]
  cases hl : lookupLast req.env k <;> simp [CommandBuilder.env_clear, lookupEnv]

theorem parseU16_le {s : String} {n : Nat} (h : parseU16 s = some n) : n ≤ 65535 := by
  unfold parseU16 at h
  cases hd : parseDigits (stripPlus s.data) with
  | none => rw [hd] at h; exact absurd h (by simp)
  | some m =>
    rw [hd, Option.some_bind] at h
    by_cases hle : m ≤ 65535
    · rw [if_pos hle] at h
      injection h with h'
      omega
    · rw [if_neg hle] at h
      exact absurd h (by simp)

theorem parse_env_size_bounds {env : EnvMap} {r c : Nat}
    (h : parse_env_size env = some (r, c)) :
    1 ≤ r ∧ r ≤ 65535 ∧ 1 ≤ c ∧ c ≤ 65535 := by
  unfold parse_env_size at h
  cases h1 : env "LINES" with
  | none => rw [h1] at h; exact absurd h (by simp)
  | some ls =>
    rw [h1, Option.some_bind] at h
    cases h2 : parseU16 ls with
    | none => rw [h2] at h; exact absurd h (by simp)
    | some rows =>
      rw [h2, Option.some_bind] at h
      cases h3 : env "COLUMNS" with
      | none => rw [h3] at h; exact absurd h (by simp)
      | some cs =>
        rw [h3, Option.some_bind] at h
        cases h4 : parseU16 cs with
        | none => rw [h4] at h; exact absurd h (by simp)
        | some cols =>
          rw [h4, Option.some_bind] at h
          have hr := parseU16_le h2
          have hc := parseU16_le h4
          by_cases hz : rows = 0 ∨ cols = 0
          · rw [if_pos hz] at h
            exact absurd h (by simp)
          · rw [if_neg hz] at h
            injection h with h'
            have h5 : rows = r := congrArg Prod.fst h'
            have h6 : cols = c := congrArg Prod.snd h'
            push_neg at hz
            omega

theorem detect_terminal_size_from_fd_pos {w : Winsize} {r c : Nat}
    (h : detect_terminal_size_from_fd w = some (r, c)) : 1 ≤ r ∧ 1 ≤ c := by
  unfold detect_terminal_size_from_fd at h
  split at h
  · exact absurd h (by simp)
  · rename_i hcond
    push_neg at hcond
    have h1 : w.ws_row = r := congrArg (fun p => p.1) (Option.some_inj.mp h)
    have h2 : w.ws_col = c := congrArg (fun p => p.2) (Option.some_inj.mp h)
    omega

theorem detect_terminal_size_pos {t : TermState} {env : EnvMap} {r c : Nat}
    (h : detect_terminal_size t env = some (r, c)) : 1 ≤ r ∧ 1 ≤ c := by
  unfold detect_terminal_size at h
  cases h1 : detect_terminal_size_from_fd t.stdout with
  | some s =>
    rw [h1] at h
    have hs : s = (r, c) := Option.some_inj.mp h
    rw [hs] at h1
    exact detect_terminal_size_from_fd_pos h1
  | none =>
    rw [h1] at h
    cases h2 : detect_terminal_size_from_fd t.stdin with
    | some s =>
      rw [h2] at h
      have hs : s = (r, c) := Option.some_inj.mp h
      rw [hs] at h2
      exact detect_terminal_size_from_fd_pos h2
    | none =>
      rw [h2] at h
      have := parse_env_size_bounds h
      omega

theorem detect_stdout_wins {t : TermState} {r c : Nat} (env : EnvMap)
    (h : detect_terminal_size_from_fd t.stdout = some (r, c)) :
    detect_terminal_size t env = some (r, c) := by
  unfold detect_terminal_size
  rw [h]

theorem detect_stdin_second {t : TermState} {r c : Nat} (env : EnvMap)
    (hout : detect_terminal_size_from_fd t.stdout = none)
    (hin : detect_terminal_size_from_fd t.stdin = some (r, c)) :
    detect_terminal_size t env = some (r, c) := by
  unfold detect_terminal_size
  rw [hout, hin]

theorem detect_env_last {t : TermState} (env : EnvMap)
    (hout : detect_terminal_size_from_fd t.stdout = none)
    (hin : detect_terminal_size_from_fd t.stdin = none) :
    detect_terminal_size t env = parse_env_size env := by
  unfold detect_terminal_size
  rw [hout, hin]

theorem spawn_process_trace_of_size {ambient : List (String × String)}
    {t : TermState} {req : SpawnRequest} {r c : Nat} (ptyOk spawnOk : Bool)
    (hprog : ¬ req.program = "")
    (hres : size_or_detect t (lookupEnv ambient) req.size = some (r, c)) :
    openedSizes (spawn_process ambient t ptyOk spawnOk req).1 =
      [(max r 1, max c 1)] := by
  unfold spawn_process
  rw [if_neg hprog, hres]
  cases ptyOk <;> cases spawnOk <;> simp [openedSizes]

theorem reader_loop_eq (rs : List ReadResult) :
    reader_loop rs = (rs.takeWhile fun r => !stopsLoop r).filterMap readEvent := by
  induction rs with
  | nil => rfl
  | cons r rest ih =>
    cases r with
    | ok data =>
      cases data with
      | nil => simp [reader_loop, stopsLoop, List.takeWhile_cons]
      | cons b bs =>
        simp [reader_loop, stopsLoop, readEvent, List.takeWhile_cons, ih]
    | interrupted =>
      simp [reader_loop, stopsLoop, readEvent, List.takeWhile_cons, ih]
    | wouldBlock =>
      simp [reader_loop, stopsLoop, readEvent, List.takeWhile_cons, ih]
    | otherError =>
      simp [reader_loop, stopsLoop, List.takeWhile_cons]

theorem reader_loop_chunk_bounds (rs : List ReadResult)
    (h : ∀ r ∈ rs, readLen r ≤ READ_BUF_LEN) :
    ∀ d ∈ publishedChunks (reader_loop rs), d ≠ [] ∧ d.length ≤ READ_BUF_LEN := by
  induction rs with
  | nil => intro d hd; simp [reader_loop, publishedChunks] at hd
  | cons r rest ih =>
    have hrest : ∀ x ∈ rest, readLen x ≤ READ_BUF_LEN := by
      intro x hx; exact h x (List.mem_cons_of_mem r hx)
    cases r with
    | ok data =>
      cases data with
      | nil => intro d hd; simp [reader_loop, publishedChunks] at hd
      | cons b bs =>
        intro d hd
        simp only [reader_loop, publishedChunks, List.filterMap_cons] at hd
        rcases List.mem_cons.mp hd with heq | hmem
        · subst heq
          refine ⟨by simp, ?_⟩
          have := h (ReadResult.ok (b :: bs)) (List.mem_cons_self _ _)
          simpa [readLen] using this
        · exact ih hrest d hmem
    | interrupted =>
      intro d hd
      exact ih hrest d (by simpa [reader_loop] using hd)
    | wouldBlock =>
      intro d hd
      simp only [reader_loop, publishedChunks, List.filterMap_cons] at hd
      exact ih hrest d hd
    | otherError =>
      intro d hd
      simp [reader_loop, publishedChunks] at hd

/-! ## Claim theorems -/

/-- C1: `spawn_process` resolves the PTY size with this precedence: an
explicit caller-supplied size (with both dimensions at least 1) is used
as-is, whatever the terminal state and environment say; otherwise stdout
introspection, then stdin introspection, then the `LINES`/`COLUMNS`
environment variables; and when all three sources fail, `spawn_process`
returns the missing-terminal-size error having performed no OS-resource
effect, so no PTY is opened. -/
theorem spawn_size_precedence (ambient : List (String × String)) (t : TermState)
    (ptyOk spawnOk : Bool) (req : SpawnRequest) (hprog : req.program ≠ "") :
    (∀ r c, req.size = some (r, c) → 1 ≤ r → 1 ≤ c →
      openedSizes (spawn_process ambient t ptyOk spawnOk req).1 = [(r, c)]) ∧
    (∀ r c, req.size = none →
      detect_terminal_size_from_fd t.stdout = some (r, c) →
      openedSizes (spawn_process ambient t ptyOk spawnOk req).1 = [(r, c)]) ∧
    (∀ r c, req.size = none →
      detect_terminal_size_from_fd t.stdout = none →
      detect_terminal_size_from_fd t.stdin = some (r, c) →
      openedSizes (spawn_process ambient t ptyOk spawnOk req).1 = [(r, c)]) ∧
    (∀ r c, req.size = none →
      detect_terminal_size_from_fd t.stdout = none →
      detect_terminal_size_from_fd t.stdin = none →
      parse_env_size (lookupEnv ambient) = some (r, c) →
      openedSizes (spawn_process ambient t ptyOk spawnOk req).1 = [(r, c)]) ∧
    (req.size = none →
      detect_terminal_size_from_fd t.stdout = none →
      detect_terminal_size_from_fd t.stdin = none →
      parse_env_size (lookupEnv ambient) = none →
      spawn_process ambient t ptyOk spawnOk req =
        ([], Except.error SpawnError.missingTerminalSize)) := by
  refine ⟨?_, ?_, ?_, ?_, ?_⟩
  · intro r c hsz hr hc
    have hres : size_or_detect t (lookupEnv ambient) req.size = some (r, c) := by
      rw [hsz]
      rfl
    have h := spawn_process_trace_of_size ptyOk spawnOk hprog hres
    rw [h, Nat.max_eq_left hr, Nat.max_eq_left hc]
  · intro r c hsz hout
    obtain ⟨hr, hc⟩ := detect_terminal_size_from_fd_pos hout
    have hres : size_or_detect t (lookupEnv ambient) req.size = some (r, c) := by
      rw [hsz]
      exact detect_stdout_wins (lookupEnv ambient) hout
    have h := spawn_process_trace_of_size ptyOk spawnOk hprog hres
    rw [h, Nat.max_eq_left hr, Nat.max_eq_left hc]
  · intro r c hsz hout hin
    obtain ⟨hr, hc⟩ := detect_terminal_size_from_fd_pos hin
    have hres : size_or_detect t (lookupEnv ambient) req.size = some (r, c) := by
      rw [hsz]
      exact detect_stdin_second (lookupEnv ambient) hout hin
    have h := spawn_process_trace_of_size ptyOk spawnOk hprog hres
    rw [h, Nat.max_eq_left hr, Nat.max_eq_left hc]
  · intro r c hsz hout hin henv
    obtain ⟨hr, _, hc, _⟩ := parse_env_size_bounds henv
    have hres : size_or_detect t (lookupEnv ambient) req.size = some (r, c) := by
      rw [hsz]
      rw [show size_or_detect t (lookupEnv ambient) none =
            detect_terminal_size t (lookupEnv ambient) from rfl]
      rw [detect_env_last (lookupEnv ambient) hout hin]
      exact henv
    have h := spawn_process_trace_of_size ptyOk spawnOk hprog hres
    rw [h, Nat.max_eq_left hr, Nat.max_eq_left hc]
  · intro hsz hout hin henv
    have hres : size_or_detect t (lookupEnv ambient) req.size = none := by
      rw [hsz]
      rw [show size_or_detect t (lookupEnv ambient) none =
            detect_terminal_size t (lookupEnv ambient) from rfl]
      rw [detect_env_last (lookupEnv ambient) hout hin]
      exact henv
    unfold spawn_process
    rw [if_neg hprog, hres]

/-- Witness for C1: with no explicit size, an unusable terminal, and an
empty environment, `spawn_process` fails with the missing-terminal-size
error and performs no effect. -/
theorem spawn_size_precedence_checked :
    spawn_process [] tNoTerm true true reqNoSize =
      ([], Except.error SpawnError.missingTerminalSize) := by
  have h := spawn_size_precedence [] tNoTerm true true reqNoSize (by decide)
  exact h.2.2.2.2 rfl (by decide) (by decide) (by decide)

/-- C2: the exit monitor derives the code from its single wait (the status
coerced to `i32` on success, the sentinel -1 when the wait errors), sets
the exit-observed flag, fills the previously empty exit-code cell, and sends
the code exactly once on the exit channel — or not at all when the receiver
is gone, in which case the dropped send changes nothing. -/
theorem wait_handle_records_and_sends_once (w : WaitResult) (alive : Bool) :
    (wait_handle w (initialExitState alive)).exit_status = true ∧
    (wait_handle w (initialExitState alive)).exit_code = some (wait_exit_code w) ∧
    (wait_handle w (initialExitState alive)).sent =
      (if alive then [wait_exit_code w] else []) ∧
    wait_exit_code WaitResult.err = -1 ∧
    (∀ c, wait_exit_code (WaitResult.ok c) = u32_as_i32 c) ∧
    (∀ s : ExitState, s.receiver_alive = false →
      (wait_handle w s).sent = s.sent) := by
  refine ⟨?_, ?_, ?_, rfl, fun c => rfl, fun s hs => ?_⟩
  · cases alive <;> rfl
  · cases alive <;> rfl
  · cases alive <;> rfl
  · simp [wait_handle, hs]

/-- Witness for C2 at a concrete input: a wait observing status 3 records
exit code 3 in the cell. -/
theorem wait_handle_records_checked :
    (wait_handle (WaitResult.ok 3) (initialExitState true)).exit_code = some 3 := by
  have h := wait_handle_records_and_sends_once (WaitResult.ok 3) true
  rw [h.2.1]
  decide

/-- C3: over any sequence of read results, the reader loop publishes one
chunk per successful nonempty read with exactly the bytes read, in order,
skips interrupted reads without any action, sleeps 5 ms on would-block reads,
and stops producing events at the first zero-byte read or first other error;
with an 8192-byte read buffer every published chunk is nonempty and at most
8192 bytes. -/
theorem reader_loop_publishes_reads_in_order (rs : List ReadResult)
    (hsize : ∀ r ∈ rs, readLen r ≤ READ_BUF_LEN) :
    reader_loop rs = (rs.takeWhile fun r => !stopsLoop r).filterMap readEvent ∧
    ∀ d ∈ publishedChunks (reader_loop rs), d ≠ [] ∧ d.length ≤ READ_BUF_LEN :=
  ⟨reader_loop_eq rs, reader_loop_chunk_bounds rs hsize⟩

/-- Witness for C3 on a sample read sequence exercising every branch. -/
theorem reader_loop_publishes_checked :
    reader_loop sampleReads =
      [ReaderEvent.publish [1, 2], ReaderEvent.sleepMillis 5,
       ReaderEvent.publish [3]] := by
  have h := reader_loop_publishes_reads_in_order sampleReads (by decide)
  rw [h.1]
  decide

/-- C4 fails as stated: an explicit size with a zero rows component is not
treated as absent — with explicit size (0, 5) and a terminal whose stdout
introspects to 40x100, `spawn_process` opens the PTY at (1, 5) (the zero
clamped to 1), not at the fallback 40x100. -/
theorem explicit_zero_size_not_treated_absent :
    openedSizes (spawn_process [] tStdout40x100 true true reqZeroRows).1 =
      [(1, 5)] ∧
    detect_terminal_size tStdout40x100 (lookupEnv []) = some (40, 100) ∧
    ((1 : Nat), (5 : Nat)) ≠ ((40 : Nat), (100 : Nat)) := by
  decide

/-- C4 amended: an explicitly supplied size is always used, never treated as
absent; each zero component is clamped to 1, and neither terminal
introspection nor the environment variables are consulted. -/
theorem explicit_size_clamped_used (ambient : List (String × String))
    (t : TermState) (ptyOk spawnOk : Bool) (req : SpawnRequest) (r c : Nat)
    (hprog : req.program ≠ "") (hsz : req.size = some (r, c)) :
    openedSizes (spawn_process ambient t ptyOk spawnOk req).1 =
      [(max r 1, max c 1)] :=
  spawn_process_trace_of_size ptyOk spawnOk hprog (by rw [hsz]; rfl)

/-- Witness for the amended C4: explicit size (0, 5) opens a 1x5 PTY. -/
theorem explicit_size_clamped_checked :
    openedSizes (spawn_process [] tNoTerm true true reqZeroRows).1 = [(1, 5)] := by
  have h := explicit_size_clamped_used [] tNoTerm true true reqZeroRows 0 5
    (by decide) rfl
  rw [h]
  decide

/-- C5 fails as stated: with an argv0 override the built command does not
execute the request's program — the override replaces the single
program/argv0 string of the command. -/
theorem arg0_override_replaces_program :
    (buildCommand [] reqArg0).program ≠ reqArg0.program := by
  decide

/-- C5 amended: the built command's program/argv0 string is the argv0
override when one is supplied and the request's program otherwise; the
arguments are the request's arguments in order and the working directory is
the request's cwd. -/
theorem build_command_fields (ambient : List (String × String))
    (req : SpawnRequest) :
    (buildCommand ambient req).program =
      (match req.arg0 with
       | some a => a
       | none => req.program) ∧
    (buildCommand ambient req).cwd = some req.cwd ∧
    (buildCommand ambient req).args = req.args :=
  ⟨buildCommand_program ambient req, buildCommand_cwd ambient req,
   buildCommand_args ambient req⟩

/-- C6 fails as stated: the -1 sentinel is not distinct from every
successfully observed exit code — a successfully waited status whose
`u32` code is 4294967295 is coerced to the signed integer -1, the same
value the sentinel uses. -/
theorem sentinel_collides_with_max_u32 :
    wait_exit_code (WaitResult.ok 4294967295) = -1 ∧
    wait_exit_code WaitResult.err = -1 := by
  decide

/-- C6 amended: the sentinel is distinct from the code of every successfully
waited status except the one whose 32-bit status value is 4294967295 (which
wraps to -1); for every other status value the reported coercion is not -1. -/
theorem sentinel_distinct_below_max (c : Nat) (hlt : c < 4294967296)
    (hne : c ≠ 4294967295) :
    wait_exit_code (WaitResult.ok c) ≠ -1 := by
  show u32_as_i32 c ≠ -1
  unfold u32_as_i32
  rw [Nat.mod_eq_of_lt hlt]
  by_cases h : c < 2147483648
  · rw [if_pos h]
    omega
  · rw [if_neg h]
    push_neg at h
    omega

/-- Witness for the amended C6: a genuine exit code 0 is not the sentinel. -/
theorem sentinel_distinct_checked : wait_exit_code (WaitResult.ok 0) ≠ -1 :=
  sentinel_distinct_below_max 0 (by decide) (by decide)

/-- C7: whatever the ambient environment of the supervisor, the built child
command's environment resolves exactly to the caller-supplied mapping (last
binding of a key wins, matching a map with unique keys), so the command's
environment is independent of the ambient one — no ambient variable reaches
the child. -/
theorem child_env_isolated_from_ambient (req : SpawnRequest) :
    (∀ (ambient : List (String × String)) (k : String),
      lookupEnv (buildCommand ambient req).envs k = lookupLast req.env k) ∧
    (∀ (ambient1 ambient2 : List (String × String)) (k : String),
      lookupEnv (buildCommand ambient1 req).envs k =
        lookupEnv (buildCommand ambient2 req).envs k) := by
  refine ⟨fun ambient k => buildCommand_env ambient req k, fun a1 a2 k => ?_⟩
  rw [buildCommand_env, buildCommand_env]

/-- C8: the environment fallback yields a size exactly when both `LINES` and
`COLUMNS` are present, both parse as `u16`, and both are nonzero — partial or
invalid pairs yield nothing at all — and with `LINES=42`, `COLUMNS=120` it
yields exactly (42, 120). -/
theorem env_size_requires_both_vars :
    parse_env_size (lookupEnv ambient42) = some (42, 120) ∧
    ∀ (env : EnvMap) (r c : Nat),
      parse_env_size env = some (r, c) ↔
        ∃ rowsStr colsStr,
          env "LINES" = some rowsStr ∧ parseU16 rowsStr = some r ∧
          env "COLUMNS" = some colsStr ∧ parseU16 colsStr = some c ∧
          r ≠ 0 ∧ c ≠ 0 := by
  constructor
  · decide
  · intro env r c
    constructor
    · intro h
      unfold parse_env_size at h
      cases h1 : env "LINES" with
      | none => rw [h1] at h; exact absurd h (by simp)
      | some ls =>
        rw [h1, Option.some_bind] at h
        cases h2 : parseU16 ls with
        | none => rw [h2] at h; exact absurd h (by simp)
        | some rows =>
          rw [h2, Option.some_bind] at h
          cases h3 : env "COLUMNS" with
          | none => rw [h3] at h; exact absurd h (by simp)
          | some cstr =>
            rw [h3, Option.some_bind] at h
            cases h4 : parseU16 cstr with
            | none => rw [h4] at h; exact absurd h (by simp)
            | some cols =>
              rw [h4, Option.some_bind] at h
              by_cases hz : rows = 0 ∨ cols = 0
              · rw [if_pos hz] at h
                exact absurd h (by simp)
              · rw [if_neg hz] at h
                injection h with h'
                have h5 : rows = r := congrArg Prod.fst h'
                have h6 : cols = c := congrArg Prod.snd h'
                push_neg at hz
                exact ⟨ls, cstr, rfl, by rw [h2, h5], rfl, by rw [h4, h6],
                  by omega, by omega⟩
    · rintro ⟨ls, cstr, h1, h2, h3, h4, hr, hc⟩
      unfold parse_env_size
      rw [h1, Option.some_bind, h2, Option.some_bind, h3, Option.some_bind,
        h4, Option.some_bind]
      rw [if_neg (fun hor => hor.elim hr hc)]

/-- Witness for C8: the 42x120 environment resolves to (42, 120). -/
theorem env_size_requires_both_checked :
    parse_env_size (lookupEnv ambient42) = some (42, 120) :=
  env_size_requires_both_vars.1

/-- C10: every value `parseU16` accepts is at most 65535, every size the
environment fallback resolves has both dimensions in 1..=65535, and a
`LINES` value that is numeric but exceeds 65535 makes the fallback yield no
size at all. -/
theorem env_size_u16_bounds :
    (∀ (s : String) (n : Nat), parseU16 s = some n → n ≤ 65535) ∧
    (∀ (env : EnvMap) (r c : Nat), parse_env_size env = some (r, c) →
      1 ≤ r ∧ r ≤ 65535 ∧ 1 ≤ c ∧ c ≤ 65535) ∧
    (∀ (env : EnvMap) (s : String), env "LINES" = some s →
      s.data ≠ [] → (∀ ch ∈ s.data, ch.isDigit = true) →
      65535 < s.data.foldl (fun a ch => a * 10 + (ch.toNat - 48)) 0 →
      parse_env_size env = none) := by
  refine ⟨fun s n h => parseU16_le h, fun env r c h => parse_env_size_bounds h, ?_⟩
  intro env s h1 hne hdig hval
  have hplus : stripPlus s.data = s.data := by
    cases hd : s.data with
    | nil => rfl
    | cons ch rest =>
      have hchd : ch.isDigit = true := hdig ch (hd ▸ List.mem_cons_self ch rest)
      have hch : ¬ ch = '+' := by
        intro hc
        rw [hc] at hchd
        exact absurd hchd (by decide)
      simp [stripPlus, hch]
  have hparse : parseU16 s = none := by
    unfold parseU16
    rw [hplus]
    unfold parseDigits
    rw [if_neg hne, if_pos (List.all_eq_true.mpr hdig), Option.some_bind,
      if_neg (by omega)]
  unfold parse_env_size
  rw [h1, Option.some_bind, hparse, Option.none_bind]

/-- Witness for C10: `LINES=70000` (with a valid `COLUMNS`) yields no size. -/
theorem env_size_u16_bounds_checked :
    parse_env_size (lookupEnv ambient70000) = none :=
  env_size_u16_bounds.2.2 (lookupEnv ambient70000) "70000" (by decide)
    (by decide) (by decide) (by decide)

/-- C9: the input writer loop dequeues the received buffers one at a time and,
for every pattern of write/flush failures, writes every queued buffer in
order (failures are swallowed and the loop continues), performing exactly one
write-then-flush iteration per buffer and terminating exactly when the
drained queue yields nothing more. -/
theorem writer_loop_writes_every_buffer (bs : List (List Nat))
    (fails : Nat → Bool × Bool) (i : Nat) :
    (writer_loop bs fails i).map (fun e => e.data) = bs ∧
    (writer_loop bs fails i).length = bs.length := by
  induction bs generalizing i with
  | nil => exact ⟨rfl, rfl⟩
  | cons b rest ih =>
    have h := ih (i + 1)
    refine ⟨?_, ?_⟩
    · rw [writer_loop, List.map_cons, h.1]
    · rw [writer_loop, List.length_cons, h.2, List.length_cons]

end PtySpec
